import Mathlib

/-!
Verification of yt_dl_gui (src/src/app.rs) against its specification.

The whole program lives in one Rust file. We shallowly embed its data
model and operations:

* floating-point fractions (`f32`) are modelled as exact rationals `ℚ`;
* Rust `Option::unwrap` panics are modelled with `Except String`;
* the external collaborators (rustube id resolution, video stream
  catalogue, the egui frame loop, the file dialog, the eframe key-value
  store) are modelled as explicit parameters or algebraic data;
* the concurrent part of the program (the spawned download task, the
  relay task draining a `tokio::sync::watch` channel, and the redraw
  loop, app.rs lines 100-195) is modelled as an interleaving semantics:
  a `Sys` state plus a `Step` alphabet, with `runSys` folding an
  arbitrary schedule.
-/

namespace YtDlGui

/-! ## Data model (app.rs lines 69-82) -/

/-- Embedding of `enum DownloadType` (app.rs lines 69-74); the `#[default]`
attribute marks `AudioOnly`. -/
inductive DownloadType
  | AudioOnly
  | VideoAudio
deriving DecidableEq, Repr

/-- Embedding of `enum AppState` (app.rs lines 76-82); the `#[default]`
attribute marks `Initial`. -/
inductive AppState
  | Initial
  | Downloading
  | Done
deriving DecidableEq, Repr

/-! ## The fetch operation `download` (app.rs lines 12-29)

`download` resolves the url with `Id::from_raw(&url).unwrap()`, fetches the
video with `Video::from_id(..).await.unwrap()`, picks a stream with
`.best_audio().unwrap()` and streams it to the destination path.  The
rustube collaborator is modelled as an environment of two partial
functions; a stream catalogue records the best audio-only stream and the
best combined video+audio stream offered for a video. -/

abbrev VideoId := String

/-- An opaque handle for one downloadable media stream of a video. -/
structure MediaStream where
  tag : Nat
deriving DecidableEq, Repr

/-- The streams the external collaborator offers for one video: its best
audio-only stream and its best combined video+audio stream. -/
structure VideoStreams where
  best_audio : Option MediaStream
  best_video_audio : Option MediaStream
deriving DecidableEq, Repr

/-- The external rustube collaborator: `Id::from_raw` and
`Video::from_id`, each of which can fail (the code unwraps both). -/
structure FetchEnv where
  from_raw : String → Option VideoId
  from_id : VideoId → Option VideoStreams

/-- Embedding of `download` (app.rs lines 12-29) restricted to stream
selection: the returned stream is the one streamed to the destination
path.  Every `.unwrap()` of the source is an `Except.error` (a panic).
Note the source function receives no download mode: line 24 always calls
`.best_audio()`. -/
def download (env : FetchEnv) (url : String) : Except String MediaStream :=
  match env.from_raw url with
  | none => .error "Id::from_raw returned None"
  | some vid =>
    match env.from_id vid with
    | none => .error "Video::from_id failed"
    | some vs =>
      match vs.best_audio with
      | none => .error "best_audio returned None"
      | some s => .ok s

/-- The stream the SPEC says the fetch operation selects for a given
requested mode (refinement reference for the claim, written from the
spec words, to be compared with `download`). -/
def specSelectedStream (vs : VideoStreams) : DownloadType → Option MediaStream
  | .AudioOnly => vs.best_audio
  | .VideoAudio => vs.best_video_audio

/-- A concrete environment in which the best audio stream and the best
video+audio stream differ. -/
def exEnv : FetchEnv where
  from_raw := fun _ => some "dQw4w9WgXcQ"
  from_id := fun _ => some ⟨some ⟨0⟩, some ⟨1⟩⟩

/-! ## The progress callback (app.rs lines 15-19)

The closure receives `x` with `x.current_chunk` (bytes received so far,
per the collaborator contract of the spec) and `x.content_length :
Option u64`.  It computes `current_chunk as f32 / content_length.unwrap()
as f32` and sends the result on the watch channel.  The `unwrap` panics
when the total size is unknown. -/

/-- The argument the external fetch collaborator passes to the progress
callback on each chunk boundary. -/
structure CallbackArgs where
  current_chunk : Nat
  content_length : Option Nat
deriving DecidableEq, Repr

/-- Embedding of the `on_progress` closure (app.rs lines 15-19).
`Except.ok (some v)` means the callback returned after publishing `v` on
the channel; `Except.ok none` would mean it returned without publishing;
`Except.error` is a panic aborting the transfer. -/
def onProgress (x : CallbackArgs) : Except String (Option ℚ) :=
  match x.content_length with
  | none => .error "called Option::unwrap on a None value"
  | some t => .ok (some (mkRat x.current_chunk t))

/-- The fraction the spec prescribes for a chunk boundary:
bytes received divided by total bytes. -/
def ratioOf (x : CallbackArgs) : ℚ :=
  (x.current_chunk : ℚ) / ((x.content_length.getD 0 : Nat) : ℚ)

/-- Running the callback over a whole transfer, one invocation per chunk
boundary: collects the published fractions in order, aborting the
transfer at the first panic. -/
def runCallbacks : List CallbackArgs → Except String (List ℚ)
  | [] => .ok []
  | x :: xs =>
    match onProgress x with
    | .error e => .error e
    | .ok none => runCallbacks xs
    | .ok (some v) =>
      match runCallbacks xs with
      | .error e => .error e
      | .ok vs => .ok (v :: vs)

/-! ## The concurrent system (app.rs lines 100-195)

`App::update` runs once per frame.  A click on the enabled Download
button opens the save dialog; on a chosen path it sets the shared state
to `Downloading`, creates a fresh `tokio::sync::watch` channel with
initial value `0.0` (line 154), and spawns the download task (lines
162-165) and the relay task (lines 168-173).  The relay task loops on
`rx.changed()`, copying the latest published fraction into the shared
`value` cell, which is REUSED across attempts (the same
`Arc<Mutex<f32>>` is cloned for every attempt, line 155).

We model the reachable states as `Sys` and the scheduler steps as
`Step`; `runSys` folds an arbitrary finite schedule.  Ghost fields
record the facts the claims are about. -/

/-- One `tokio::sync::watch` channel: the latest published value, whether
the receiver has already observed it, and whether the sender was
dropped. -/
structure WatchChan where
  latest : ℚ
  seen : Bool
  closed : Bool
deriving DecidableEq, Repr

/-- Bookkeeping for one download attempt: its watch channel, whether its
download task finished (line 163 returned), whether that task panicked
and aborted, and whether its relay task loop has exited. -/
structure Attempt where
  chan : WatchChan
  fetchDone : Bool
  fetchAborted : Bool
  relayDone : Bool
deriving DecidableEq, Repr

/-- The attempt record created at spawn time: channel `watch::channel(0.0)`
with the initial value already seen by the receiver, both tasks running. -/
def freshAttempt : Attempt :=
  { chan := { latest := 0, seen := true, closed := false }
    fetchDone := false
    fetchAborted := false
    relayDone := false }

/-- The shared state of the running program: the two persisted fields of
`App`, the two shared cells (`state`, `value`), the list of attempts
started so far (oldest first; an attempt record existing models its two
tasks having been spawned), and ghost observers:
`dialogCount` counts how often the save dialog was opened,
`staleWrite` records whether a relay task of a non-current attempt ever
wrote the shared fraction after a newer attempt had started, and
`doneFromNonDownloading` records whether a download task ever performed
its terminal transition from a state other than `Downloading`. -/
structure Sys where
  url : String
  download_type : DownloadType
  state : AppState
  value : ℚ
  attempts : List Attempt
  dialogCount : Nat
  staleWrite : Bool
  doneFromNonDownloading : Bool
deriving DecidableEq, Repr

/-- The scheduler alphabet.
`frame edit click dialog` is one execution of `App::update`: `edit` is
the text the user typed into the url field this frame (if any), `click`
whether the user pressed the Download button area, `dialog` the path the
save dialog would yield if opened.
`publish a bytes total` is the progress callback of attempt `a` with known
content length; `publishUnknown a` the same with unknown content length
(which panics, aborting that download task);
`fetchDone a` is the download task of attempt `a` returning (dropping the
sender and writing `Done`, lines 163-164);
`relayStep a` is one iteration of the relay loop of attempt `a` (lines
169-172). -/
inductive Step
  | frame (edit : Option String) (click : Bool) (dialog : Option String)
  | publish (a : Nat) (bytes total : Nat)
  | publishUnknown (a : Nat)
  | fetchDone (a : Nat)
  | relayStep (a : Nat)
deriving DecidableEq, Repr

/-- One frame of `App::update` (app.rs lines 100-195).  `stateVal` is the
snapshot taken at line 109; both the text edit (line 114) and the button
(line 139) are enabled only while the snapshot is not `Downloading`.  An
edit forces the state to `Initial` (line 119).  An enabled click opens
the dialog (lines 144-147); a chosen path sets `Downloading` (line 151)
and spawns the two tasks on a fresh channel (lines 154-173). -/
def updateFrame (s : Sys) (edit : Option String) (click : Bool)
    (dialog : Option String) : Sys :=
  let stateVal := s.state
  let s1 :=
    if stateVal = AppState.Downloading then s
    else
      match edit with
      | some u => { s with url := u, state := AppState.Initial }
      | none => s
  if click = true ∧ ¬stateVal = AppState.Downloading then
    let s2 := { s1 with dialogCount := s1.dialogCount + 1 }
    match dialog with
    | some _path =>
        { s2 with
          state := AppState.Downloading
          attempts := s2.attempts ++ [freshAttempt] }
    | none => s2
  else s1

/-- The progress callback of attempt `a` with known total (app.rs lines
15-17): publishes `bytes / total` on the channel of attempt `a`.  Only a
still-running download task can invoke its callback. -/
def applyPublish (s : Sys) (a bytes total : Nat) : Sys :=
  match s.attempts.get? a with
  | none => s
  | some att =>
    if att.fetchDone = true ∨ att.fetchAborted = true then s
    else
      { s with
        attempts := s.attempts.set a
          { att with
            chan := { latest := mkRat bytes total
                      seen := false
                      closed := att.chan.closed } } }

/-- The progress callback of attempt `a` with unknown total: the
`content_length.unwrap()` of line 16 panics, aborting that download task
and dropping the sender (closing the channel). -/
def applyPublishUnknown (s : Sys) (a : Nat) : Sys :=
  match s.attempts.get? a with
  | none => s
  | some att =>
    if att.fetchDone = true ∨ att.fetchAborted = true then s
    else
      { s with
        attempts := s.attempts.set a
          { att with
            fetchAborted := true
            chan := { att.chan with closed := true } } }

/-- The download task of attempt `a` returns: the sender is dropped (closing
the channel) and the task writes `Done` into the shared state cell
(line 164).  The ghost flag records whether the pre-state of this
terminal transition was something other than `Downloading`. -/
def applyFetchDone (s : Sys) (a : Nat) : Sys :=
  match s.attempts.get? a with
  | none => s
  | some att =>
    if att.fetchDone = true ∨ att.fetchAborted = true then s
    else
      { s with
        state := AppState.Done
        attempts := s.attempts.set a
          { att with
            fetchDone := true
            chan := { att.chan with closed := true } }
        doneFromNonDownloading :=
          s.doneFromNonDownloading ||
            decide (¬s.state = AppState.Downloading) }

/-- One iteration of the relay loop of attempt `a` (app.rs lines 169-172): if
the channel holds an unseen value, `rx.changed()` resolves and the task
copies `*rx.borrow()` into the shared `value` cell; if the channel is
closed and drained, `rx.changed()` errors and the loop exits; otherwise
the task stays suspended.  The ghost flag records a write performed by a
relay task whose attempt is no longer the newest one. -/
def applyRelay (s : Sys) (a : Nat) : Sys :=
  match s.attempts.get? a with
  | none => s
  | some att =>
    if att.relayDone = true then s
    else if att.chan.seen = false then
      { s with
        value := att.chan.latest
        attempts := s.attempts.set a
          { att with chan := { att.chan with seen := true } }
        staleWrite := s.staleWrite || decide (¬a + 1 = s.attempts.length) }
    else if att.chan.closed = true then
      { s with attempts := s.attempts.set a { att with relayDone := true } }
    else s

/-- Dispatch one scheduler step. -/
def stepSys (s : Sys) : Step → Sys
  | .frame e c d => updateFrame s e c d
  | .publish a b t => applyPublish s a b t
  | .publishUnknown a => applyPublishUnknown s a
  | .fetchDone a => applyFetchDone s a
  | .relayStep a => applyRelay s a

/-- The state of a freshly started app before any frame: no attempt, the
shared cells at their `App::default` values (app.rs lines 45-54). -/
def initSys (url : String) (dt : DownloadType) : Sys :=
  { url := url
    download_type := dt
    state := AppState.Initial
    value := 0
    attempts := []
    dialogCount := 0
    staleWrite := false
    doneFromNonDownloading := false }

/-- Run an arbitrary finite schedule from the initial state. -/
def runSys (url : String) (dt : DownloadType) (steps : List Step) : Sys :=
  steps.foldl stepSys (initSys url dt)

/-- The download task of attempt `a` is spawned and still running. -/
def fetchAliveB (s : Sys) (a : Nat) : Bool :=
  match s.attempts.get? a with
  | none => false
  | some att => !att.fetchDone && !att.fetchAborted

/-- Iterated frames with fixed inputs, for the repeated-activation claim. -/
def iterFrames (e : Option String) (c : Bool) (d : Option String) :
    Nat → Sys → Sys
  | 0, s => s
  | n + 1, s => iterFrames e c d n (stepSys s (.frame e c d))

/-! ## Shared helper lemmas -/

/-- Applying `mkRat` to naturals is exactly the rational division of their casts
(both send a zero denominator to `0`). -/
theorem mkRat_natCast_div (n d : Nat) : (mkRat n d : ℚ) = (n : ℚ) / (d : ℚ) := by
  rw [Rat.mkRat_eq_divInt, Rat.divInt_eq_div]
  norm_num

/-- Applying `mkRat` to naturals gives a nonnegative rational. -/
theorem mkRat_natCast_nonneg (n d : Nat) : 0 ≤ (mkRat n d : ℚ) := by
  rw [mkRat_natCast_div]
  positivity

/-! ## Claim C1: stream selection and download mode -/

/-- C1 counterexample: the claim says the fetch operation selects a
combined video+audio stream when the requested mode is `VideoAudio`.  In
the environment `exEnv` the best video+audio stream is `⟨1⟩`, yet
`download` delivers `⟨0⟩`, the best audio-only stream, because app.rs
line 24 always calls `.best_audio()` and the mode is not even passed to
`download`. -/
theorem C1_counterexample :
    download exEnv "u" = .ok ⟨0⟩
      ∧ specSelectedStream ⟨some ⟨0⟩, some ⟨1⟩⟩ DownloadType.VideoAudio = some ⟨1⟩
      ∧ ¬(MediaStream.mk 0 = MediaStream.mk 1) :=
  ⟨rfl, rfl, by decide⟩

/-- C1 (amended): for every download request whose identifier resolves
and whose video offers a best audio stream, the fetch operation selects
that best audio-only stream — regardless of the requested download mode,
which never reaches `download` — and streams it to the destination
path. -/
theorem C1_download_selects_best_audio (env : FetchEnv) (url : String)
    (vid : VideoId) (vs : VideoStreams) (s : MediaStream)
    (h1 : env.from_raw url = some vid) (h2 : env.from_id vid = some vs)
    (h3 : vs.best_audio = some s) :
    download env url = .ok s := by
  simp [download, h1, h2, h3]

/-- Witness for C1: the amended theorem applied in the concrete
environment `exEnv`. -/
theorem C1_download_selects_best_audio_witness :
    exEnv.from_raw "u" = some "dQw4w9WgXcQ"
      ∧ exEnv.from_id "dQw4w9WgXcQ" = some ⟨some ⟨0⟩, some ⟨1⟩⟩
      ∧ download exEnv "u" = .ok ⟨0⟩ :=
  ⟨rfl, rfl,
    C1_download_selects_best_audio exEnv "u" "dQw4w9WgXcQ"
      ⟨some ⟨0⟩, some ⟨1⟩⟩ ⟨0⟩ rfl rfl rfl⟩

/-! ## Claim C2: the published fraction -/

/-- C2: over a transfer in which the total size is known at every chunk
boundary, the sequence of fractions published to the watch channel is
exactly, chunk by chunk, bytes received divided by total bytes. -/
theorem C2_published_fraction_is_ratio (xs : List CallbackArgs)
    (h : ∀ x ∈ xs, x.content_length.isSome = true) :
    runCallbacks xs = .ok (xs.map ratioOf) := by
  induction xs with
  | nil => rfl
  | cons x xs ih =>
    obtain ⟨t, ht⟩ := Option.isSome_iff_exists.mp (h x (List.mem_cons_self x xs))
    have hrest := fun y hy => h y (List.mem_cons_of_mem x hy)
    simp [runCallbacks, onProgress, ht, ih hrest, ratioOf, mkRat_natCast_div]

/-- Witness for C2: a concrete two-chunk transfer with total 1000. -/
theorem C2_published_fraction_is_ratio_witness :
    (∀ x ∈ [CallbackArgs.mk 100 (some 1000), CallbackArgs.mk 200 (some 1000)],
        x.content_length.isSome = true)
      ∧ runCallbacks [CallbackArgs.mk 100 (some 1000), CallbackArgs.mk 200 (some 1000)]
          = .ok ([CallbackArgs.mk 100 (some 1000), CallbackArgs.mk 200 (some 1000)].map ratioOf) :=
  ⟨by decide, C2_published_fraction_is_ratio _ (by decide)⟩

/-! ## Claim C3: unknown total size -/

/-- C3 counterexample: the claim says an unknown total size at a chunk
boundary is absorbed locally (the callback returns without publishing
and the transfer continues).  At the concrete chunk boundary
`⟨50, none⟩` the callback does not return without publishing: line 16
unwraps the `None` content length and panics, and a transfer hitting
that boundary aborts instead of continuing to later chunks. -/
theorem C3_counterexample :
    ¬(onProgress ⟨50, none⟩ = .ok none)
      ∧ onProgress ⟨50, none⟩ = .error "called Option::unwrap on a None value"
      ∧ runCallbacks [⟨50, none⟩, ⟨100, some 100⟩]
          = .error "called Option::unwrap on a None value" := by
  refine ⟨?_, rfl, rfl⟩
  intro h
  simp [onProgress] at h

/-- C3 (amended): at every chunk boundary where the total size is not
yet known, no fraction is published for that chunk, but the condition is
not absorbed: the callback panics on the `content_length.unwrap()`,
aborting the transfer there whatever chunks would have followed. -/
theorem C3_unknown_total_panics (c : Nat) (rest : List CallbackArgs) :
    (∀ v, ¬onProgress ⟨c, none⟩ = .ok (some v))
      ∧ onProgress ⟨c, none⟩ = .error "called Option::unwrap on a None value"
      ∧ runCallbacks (⟨c, none⟩ :: rest)
          = .error "called Option::unwrap on a None value" := by
  refine ⟨?_, rfl, rfl⟩
  intro v h
  simp [onProgress] at h

/-! ## List access helpers -/

/-- An element found by index is a member of the list. -/
theorem mem_of_get?_eq {α : Type _} {l : List α} {i : Nat} {a : α}
    (h : l.get? i = some a) : a ∈ l := by
  induction l generalizing i with
  | nil => simp [List.get?] at h
  | cons x xs ih =>
    cases i with
    | zero =>
      simp [List.get?] at h
      simp [h]
    | succ n => exact List.mem_cons_of_mem x (ih h)

/-- Membership in a list after `set` comes from the new element or the
old list. -/
theorem mem_set_elim {α : Type _} {l : List α} {n : Nat} {a x : α}
    (h : x ∈ l.set n a) : x = a ∨ x ∈ l := by
  induction l generalizing n with
  | nil => simp [List.set] at h
  | cons y ys ih =>
    cases n with
    | zero =>
      rcases List.mem_cons.mp h with h1 | h1
      · exact Or.inl h1
      · exact Or.inr (List.mem_cons_of_mem y h1)
    | succ m =>
      rcases List.mem_cons.mp h with h1 | h1
      · exact Or.inr (by simp [h1])
      · rcases ih h1 with h2 | h2
        · exact Or.inl h2
        · exact Or.inr (List.mem_cons_of_mem y h2)

/-- Indexing into a list after `set`: either we hit the updated slot or
the original list answers unchanged at a different slot. -/
theorem get?_set_cases {α : Type _} (l : List α) (n : Nat) (a : α) (i : Nat) {x : α}
    (h : (l.set n a).get? i = some x) :
    (i = n ∧ x = a) ∨ (¬i = n ∧ l.get? i = some x) := by
  by_cases hin : i = n
  · subst hin
    rw [List.get?_set_eq] at h
    rcases Option.map_eq_some'.mp h with ⟨b, _, hb⟩
    exact Or.inl ⟨rfl, hb.symm⟩
  · rw [List.get?_set_ne a l (fun hh => hin hh.symm)] at h
    exact Or.inr ⟨hin, h⟩

/-- Indexing into a list extended by one element on the right. -/
theorem get?_append_one {α : Type _} {l : List α} {a : α} {i : Nat} {x : α}
    (h : (l ++ [a]).get? i = some x) :
    l.get? i = some x ∨ (i = l.length ∧ x = a) := by
  induction l generalizing i with
  | nil =>
    cases i with
    | zero =>
      simp at h
      exact Or.inr ⟨rfl, h.symm⟩
    | succ n => simp [List.get?] at h
  | cons y ys ih =>
    cases i with
    | zero => exact Or.inl h
    | succ n =>
      rcases ih h with h2 | ⟨h2, h3⟩
      · exact Or.inl h2
      · exact Or.inr ⟨by simp [h2], h3⟩

/-- Fold preservation for step-closed predicates on `Sys`. -/
theorem foldl_step_pres {P : Sys → Prop}
    (hP : ∀ s st, P s → P (stepSys s st)) :
    ∀ (steps : List Step) (s : Sys), P s → P (steps.foldl stepSys s)
  | [], _, h => h
  | st :: steps, s, h => foldl_step_pres hP steps _ (hP s st h)

/-! ## Invariant: the shared fraction cell is nonnegative -/

/-- The shared `value` cell and every channel's latest value are
nonnegative. -/
def GoodVal (s : Sys) : Prop :=
  0 ≤ s.value ∧ ∀ att ∈ s.attempts, 0 ≤ att.chan.latest

theorem goodVal_init (url : String) (dt : DownloadType) :
    GoodVal (initSys url dt) := by
  constructor
  · simp [initSys]
  · intro att h
    simp [initSys] at h

/-- A frame never changes the shared fraction cell. -/
theorem updateFrame_value_eq (s : Sys) (e : Option String) (c : Bool)
    (d : Option String) : (updateFrame s e c d).value = s.value := by
  unfold updateFrame
  cases e <;> cases d <;> dsimp only <;> split_ifs <;> rfl

/-- A frame either leaves the attempt list alone or, only when the
snapshot state is not `Downloading`, appends one fresh attempt and sets
the state to `Downloading`. -/
theorem updateFrame_attempts_cases (s : Sys) (e : Option String) (c : Bool)
    (d : Option String) :
    (updateFrame s e c d).attempts = s.attempts
      ∨ ((updateFrame s e c d).attempts = s.attempts ++ [freshAttempt]
          ∧ (updateFrame s e c d).state = AppState.Downloading
          ∧ ¬s.state = AppState.Downloading) := by
  unfold updateFrame
  cases e <;> cases d <;> dsimp only <;> split_ifs with h1 h2 <;>
    first
      | exact Or.inl rfl
      | exact Or.inr ⟨rfl, rfl, h1.2⟩

/-- A frame whose snapshot state is `Downloading` changes nothing: both
the text edit and the button are disabled. -/
theorem updateFrame_downloading (s : Sys) (e : Option String) (c : Bool)
    (d : Option String) (h : s.state = AppState.Downloading) :
    updateFrame s e c d = s := by
  unfold updateFrame
  cases e <;> cases d <;> simp [h]

theorem goodVal_step (s : Sys) (st : Step) (h : GoodVal s) :
    GoodVal (stepSys s st) := by
  obtain ⟨hv, ha⟩ := h
  cases st with
  | frame e c d =>
    show GoodVal (updateFrame s e c d)
    refine ⟨by rw [updateFrame_value_eq]; exact hv, ?_⟩
    intro att hm
    rcases updateFrame_attempts_cases s e c d with hcase | ⟨hcase, _, _⟩
    · rw [hcase] at hm
      exact ha att hm
    · rw [hcase] at hm
      rcases List.mem_append.mp hm with h1 | h1
      · exact ha att h1
      · simp at h1
        simp [h1, freshAttempt]
  | publish a b t =>
    show GoodVal (applyPublish s a b t)
    unfold applyPublish
    cases hg : s.attempts.get? a with
    | none => exact ⟨hv, ha⟩
    | some att =>
      dsimp only
      split_ifs with hcond
      · exact ⟨hv, ha⟩
      · refine ⟨hv, ?_⟩
        intro att2 hm
        rcases mem_set_elim hm with h1 | h1
        · rw [h1]
          exact mkRat_natCast_nonneg b t
        · exact ha att2 h1
  | publishUnknown a =>
    show GoodVal (applyPublishUnknown s a)
    unfold applyPublishUnknown
    cases hg : s.attempts.get? a with
    | none => exact ⟨hv, ha⟩
    | some att =>
      dsimp only
      split_ifs with hcond
      · exact ⟨hv, ha⟩
      · refine ⟨hv, ?_⟩
        intro att2 hm
        rcases mem_set_elim hm with h1 | h1
        · rw [h1]
          exact ha att (mem_of_get?_eq hg)
        · exact ha att2 h1
  | fetchDone a =>
    show GoodVal (applyFetchDone s a)
    unfold applyFetchDone
    cases hg : s.attempts.get? a with
    | none => exact ⟨hv, ha⟩
    | some att =>
      dsimp only
      split_ifs with hcond
      · exact ⟨hv, ha⟩
      · refine ⟨hv, ?_⟩
        intro att2 hm
        rcases mem_set_elim hm with h1 | h1
        · rw [h1]
          exact ha att (mem_of_get?_eq hg)
        · exact ha att2 h1
  | relayStep a =>
    show GoodVal (applyRelay s a)
    unfold applyRelay
    cases hg : s.attempts.get? a with
    | none => exact ⟨hv, ha⟩
    | some att =>
      dsimp only
      split_ifs with h1 h2 h3
      · exact ⟨hv, ha⟩
      · refine ⟨ha att (mem_of_get?_eq hg), ?_⟩
        intro att2 hm
        rcases mem_set_elim hm with hm1 | hm1
        · rw [hm1]
          exact ha att (mem_of_get?_eq hg)
        · exact ha att2 hm1
      · refine ⟨hv, ?_⟩
        intro att2 hm
        rcases mem_set_elim hm with hm1 | hm1
        · rw [hm1]
          exact ha att (mem_of_get?_eq hg)
        · exact ha att2 hm1
      · exact ⟨hv, ha⟩

theorem goodVal_run (url : String) (dt : DownloadType) (steps : List Step) :
    GoodVal (runSys url dt steps) :=
  foldl_step_pres goodVal_step steps _ (goodVal_init url dt)

/-! ## Invariant: a running download task implies state `Downloading` -/

/-- Only the newest attempt can have a running download task, and while
one is running the shared state is `Downloading`; moreover no terminal
transition has ever started from a state other than `Downloading`. -/
def SysInv (s : Sys) : Prop :=
  (∀ i att, s.attempts.get? i = some att → att.fetchDone = false →
      att.fetchAborted = false →
      i + 1 = s.attempts.length ∧ s.state = AppState.Downloading)
    ∧ s.doneFromNonDownloading = false

theorem sysInv_init (url : String) (dt : DownloadType) :
    SysInv (initSys url dt) := by
  constructor
  · intro i att hg
    simp [initSys, List.get?] at hg
  · rfl

theorem sysInv_step (s : Sys) (st : Step) (h : SysInv s) :
    SysInv (stepSys s st) := by
  obtain ⟨hal, hgh⟩ := h
  cases st with
  | frame e c d =>
    show SysInv (updateFrame s e c d)
    by_cases hdl : s.state = AppState.Downloading
    · rw [updateFrame_downloading s e c d hdl]
      exact ⟨hal, hgh⟩
    · have hnoalive : ∀ i att, s.attempts.get? i = some att →
          att.fetchDone = false → att.fetchAborted = false → False := by
        intro i att hg h1 h2
        exact hdl (hal i att hg h1 h2).2
      have hval : (updateFrame s e c d).doneFromNonDownloading = false := by
        unfold updateFrame
        cases e <;> cases d <;> dsimp only <;> split_ifs <;> exact hgh
      refine ⟨?_, hval⟩
      intro i att hg h1 h2
      rcases updateFrame_attempts_cases s e c d with hcase | ⟨hcase, hst, _⟩
      · rw [hcase] at hg
        exact absurd (hnoalive i att hg h1 h2) (fun f => f)
      · rw [hcase] at hg
        rcases get?_append_one hg with hg1 | ⟨hg1, _⟩
        · exact absurd (hnoalive i att hg1 h1 h2) (fun f => f)
        · constructor
          · rw [hcase, hg1]
            simp
          · exact hst
  | publish a b t =>
    show SysInv (applyPublish s a b t)
    unfold applyPublish
    cases hg : s.attempts.get? a with
    | none => exact ⟨hal, hgh⟩
    | some att =>
      dsimp only
      split_ifs with hcond
      · exact ⟨hal, hgh⟩
      · refine ⟨?_, hgh⟩
        intro i att2 hg2 h1 h2
        rcases get?_set_cases _ _ _ _ hg2 with ⟨hi, hx⟩ | ⟨_, hg3⟩
        · subst hi
          have h3 : att.fetchDone = false ∧ att.fetchAborted = false := by
            constructor <;> 
              [exact (by rw [hx] at h1; exact h1); exact (by rw [hx] at h2; exact h2)]
          have := hal i att hg h3.1 h3.2
          simpa [List.length_set] using this
        · have := hal i att2 hg3 h1 h2
          simpa [List.length_set] using this
  | publishUnknown a =>
    show SysInv (applyPublishUnknown s a)
    unfold applyPublishUnknown
    cases hg : s.attempts.get? a with
    | none => exact ⟨hal, hgh⟩
    | some att =>
      dsimp only
      split_ifs with hcond
      · exact ⟨hal, hgh⟩
      · refine ⟨?_, hgh⟩
        intro i att2 hg2 h1 h2
        rcases get?_set_cases _ _ _ _ hg2 with ⟨hi, hx⟩ | ⟨_, hg3⟩
        · rw [hx] at h2
          simp at h2
        · have := hal i att2 hg3 h1 h2
          simpa [List.length_set] using this
  | fetchDone a =>
    show SysInv (applyFetchDone s a)
    unfold applyFetchDone
    cases hg : s.attempts.get? a with
    | none => exact ⟨hal, hgh⟩
    | some att =>
      dsimp only
      split_ifs with hcond
      · exact ⟨hal, hgh⟩
      · have halive : att.fetchDone = false ∧ att.fetchAborted = false := by
          constructor <;> [skip; skip] <;>
            (first
              | (cases hfd : att.fetchDone
                 · rfl
                 · exact absurd (Or.inl hfd) hcond)
              | (cases hfa : att.fetchAborted
                 · rfl
                 · exact absurd (Or.inr hfa) hcond))
        have hdl : s.state = AppState.Downloading :=
          (hal a att hg halive.1 halive.2).2
        have hlast : a + 1 = s.attempts.length :=
          (hal a att hg halive.1 halive.2).1
        constructor
        · intro i att2 hg2 h1 h2
          rcases get?_set_cases _ _ _ _ hg2 with ⟨_, hx⟩ | ⟨hne, hg3⟩
          · rw [hx] at h1
            simp at h1
          · have := hal i att2 hg3 h1 h2
            exact absurd (this.1.trans hlast.symm) (fun hh => hne (Nat.succ_injective hh))
        · simp [hgh, hdl]
  | relayStep a =>
    show SysInv (applyRelay s a)
    unfold applyRelay
    cases hg : s.attempts.get? a with
    | none => exact ⟨hal, hgh⟩
    | some att =>
      dsimp only
      split_ifs with h1 h2 h3
      · exact ⟨hal, hgh⟩
      · refine ⟨?_, hgh⟩
        intro i att2 hg2 hf1 hf2
        rcases get?_set_cases _ _ _ _ hg2 with ⟨hi, hx⟩ | ⟨_, hg3⟩
        · subst hi
          have hd : att.fetchDone = false := by rw [hx] at hf1; exact hf1
          have hb : att.fetchAborted = false := by rw [hx] at hf2; exact hf2
          have := hal i att hg hd hb
          simpa [List.length_set] using this
        · have := hal i att2 hg3 hf1 hf2
          simpa [List.length_set] using this
      · refine ⟨?_, hgh⟩
        intro i att2 hg2 hf1 hf2
        rcases get?_set_cases _ _ _ _ hg2 with ⟨hi, hx⟩ | ⟨_, hg3⟩
        · subst hi
          have hd : att.fetchDone = false := by rw [hx] at hf1; exact hf1
          have hb : att.fetchAborted = false := by rw [hx] at hf2; exact hf2
          have := hal i att hg hd hb
          simpa [List.length_set] using this
        · have := hal i att2 hg3 hf1 hf2
          simpa [List.length_set] using this
      · exact ⟨hal, hgh⟩

theorem sysInv_run (url : String) (dt : DownloadType) (steps : List Step) :
    SysInv (runSys url dt steps) :=
  foldl_step_pres sysInv_step steps _ (sysInv_init url dt)

/-! ## Claim C4: attempt isolation of the shared fraction -/

/-- A concrete interleaving: attempt 0 publishes fraction 1 which its
relay task has not yet read when the attempt completes; the user starts
attempt 1, whose download task publishes 1/10 and whose relay task
mirrors it; then the scheduler finally runs the old relay task, which
still holds the unread value of the closed old channel and writes it
over the new attempt's fraction. -/
def c4Trace : List Step :=
  [ .frame none true (some "old.mp3"),
    .publish 0 100 100,
    .fetchDone 0,
    .frame none true (some "new.mp3"),
    .publish 1 10 100,
    .relayStep 1,
    .relayStep 0 ]

/-- C4 counterexample: in the interleaving `c4Trace` a stale relay write
does occur: just before the last step the new attempt's shared fraction
is 10/100, and the old attempt's relay task then overwrites it with the
old attempt's value 1. -/
theorem C4_counterexample :
    (runSys "" DownloadType.AudioOnly c4Trace.dropLast).staleWrite = false
      ∧ (runSys "" DownloadType.AudioOnly c4Trace.dropLast).value = mkRat 10 100
      ∧ (runSys "" DownloadType.AudioOnly c4Trace).staleWrite = true
      ∧ (runSys "" DownloadType.AudioOnly c4Trace).value = 1 := by
  refine ⟨?_, ?_, ?_, ?_⟩ <;> decide

/-- C4 (amended): a stale relay task holding an unread value CAN
overwrite the new attempt's shared fraction after a new attempt starts
(the shared `value` cell is reused across attempts, app.rs line 155),
but in every interleaving the shared fraction never regresses below
0.0. -/
theorem C4_stale_overwrite_possible_value_nonneg :
    (∃ steps, (runSys "" DownloadType.AudioOnly steps).staleWrite = true)
      ∧ ∀ url dt steps, 0 ≤ (runSys url dt steps).value :=
  ⟨⟨c4Trace, by decide⟩, fun url dt steps => (goodVal_run url dt steps).1⟩

/-! ## Claim C5: completion transitions `Downloading` to `Done` -/

/-- C5: in every reachable state, no terminal transition has ever fired
from a state other than `Downloading`, and whenever an attempt's
download task is still running, the shared state is `Downloading` and
the completion step takes it to `Done` — so the final transition of a
successful attempt is `Downloading → Done`. -/
theorem C5_completion_is_downloading_to_done (url : String)
    (dt : DownloadType) (steps : List Step) :
    (runSys url dt steps).doneFromNonDownloading = false
      ∧ ∀ a, fetchAliveB (runSys url dt steps) a = true →
          (runSys url dt steps).state = AppState.Downloading
            ∧ (stepSys (runSys url dt steps) (.fetchDone a)).state
                = AppState.Done := by
  obtain ⟨hal, hgh⟩ := sysInv_run url dt steps
  refine ⟨hgh, ?_⟩
  intro a halive
  unfold fetchAliveB at halive
  cases hg : (runSys url dt steps).attempts.get? a with
  | none => rw [hg] at halive; simp at halive
  | some att =>
    rw [hg] at halive
    simp only [Bool.and_eq_true, Bool.not_eq_true'] at halive
    refine ⟨(hal a att hg halive.1 halive.2).2, ?_⟩
    show (applyFetchDone (runSys url dt steps) a).state = AppState.Done
    unfold applyFetchDone
    rw [hg]
    dsimp only
    split_ifs with hcond
    · rcases hcond with h1 | h1
      · rw [halive.1] at h1; cases h1
      · rw [halive.2] at h1; cases h1
    · rfl

/-- Witness for C5: after one frame that starts a download, attempt 0 is
running, the state is `Downloading`, and its completion step yields
`Done`. -/
theorem C5_completion_is_downloading_to_done_witness :
    fetchAliveB (runSys "" DownloadType.AudioOnly
        [.frame none true (some "p.mp3")]) 0 = true
      ∧ ((runSys "" DownloadType.AudioOnly
            [.frame none true (some "p.mp3")]).state = AppState.Downloading
          ∧ (stepSys (runSys "" DownloadType.AudioOnly
              [.frame none true (some "p.mp3")]) (.fetchDone 0)).state
                = AppState.Done) :=
  ⟨by decide,
    (C5_completion_is_downloading_to_done "" DownloadType.AudioOnly
        [.frame none true (some "p.mp3")]).2 0 (by decide)⟩

/-! ## Claim C6: trigger while not downloading -/

/-- C6: a frame whose snapshot state is not `Downloading` and in which
the download trigger fires: if the dialog returns a path, the state
becomes `Downloading` and one fresh attempt (its download task and its
relay task, both running) is appended; if the dialog returns `None`,
the state, the attempt list and the shared fraction are untouched
(though the dialog was opened). -/
theorem C6_trigger_spawns_or_aborts (s : Sys) (p : String)
    (h : ¬s.state = AppState.Downloading) :
    ((stepSys s (.frame none true (some p))).state = AppState.Downloading
        ∧ (stepSys s (.frame none true (some p))).attempts
            = s.attempts ++ [freshAttempt]
        ∧ freshAttempt.fetchDone = false ∧ freshAttempt.relayDone = false)
      ∧ ((stepSys s (.frame none true none)).state = s.state
          ∧ (stepSys s (.frame none true none)).attempts = s.attempts
          ∧ (stepSys s (.frame none true none)).value = s.value
          ∧ (stepSys s (.frame none true none)).dialogCount
              = s.dialogCount + 1) := by
  refine ⟨⟨?_, ?_, rfl, rfl⟩, ?_, ?_, ?_, ?_⟩ <;>
    show _ = _ <;> unfold stepSys updateFrame <;> dsimp only <;>
    split_ifs <;> first | rfl | simp_all

/-- Witness for C6: from the freshly started app (state `Initial`). -/
theorem C6_trigger_spawns_or_aborts_witness :
    ¬(initSys "" DownloadType.AudioOnly).state = AppState.Downloading
      ∧ (stepSys (initSys "" DownloadType.AudioOnly)
            (.frame none true (some "p.mp3"))).state = AppState.Downloading
      ∧ (stepSys (initSys "" DownloadType.AudioOnly)
            (.frame none true none)).attempts
          = (initSys "" DownloadType.AudioOnly).attempts :=
  ⟨by decide,
    ((C6_trigger_spawns_or_aborts (initSys "" DownloadType.AudioOnly) "p.mp3"
        (by decide)).1).1,
    ((C6_trigger_spawns_or_aborts (initSys "" DownloadType.AudioOnly) "p.mp3"
        (by decide)).2).2.1⟩

/-! ## Claim C7: trigger while downloading is a no-op -/

/-- C7: while the snapshot state is `Downloading`, any number of frames
with the download trigger activated change nothing at all: the state,
the attempt list (no spawned task) and the dialog count (no dialog
opened) are all exactly as before. -/
theorem C7_trigger_noop_while_downloading (s : Sys)
    (h : s.state = AppState.Downloading) (n : Nat) (e : Option String)
    (d : Option String) :
    iterFrames e true d n s = s := by
  induction n with
  | zero => rfl
  | succ m ih =>
    show iterFrames e true d m (stepSys s (.frame e true d)) = s
    rw [show stepSys s (.frame e true d) = s from updateFrame_downloading s e true d h]
    exact ih

/-- Witness for C7: three repeated activations from a state reached by
starting a download. -/
theorem C7_trigger_noop_while_downloading_witness :
    (runSys "" DownloadType.AudioOnly [.frame none true (some "p.mp3")]).state
        = AppState.Downloading
      ∧ iterFrames (some "other url") true (some "q.mp3") 3
          (runSys "" DownloadType.AudioOnly [.frame none true (some "p.mp3")])
        = runSys "" DownloadType.AudioOnly [.frame none true (some "p.mp3")] :=
  ⟨by decide,
    C7_trigger_noop_while_downloading
      (runSys "" DownloadType.AudioOnly [.frame none true (some "p.mp3")])
      (by decide) 3 (some "other url") (some "q.mp3")⟩

/-! ## Claim C8: editing the url resets the state -/

/-- C8: a frame whose snapshot state is not `Downloading` in which the
user edits the url text (and does not click): the state becomes
`Initial`, the url is updated, and no task is started or restarted (the
attempt list, with every task record in it, and the dialog count are
untouched). -/
theorem C8_edit_resets_to_initial (s : Sys) (u : String)
    (h : ¬s.state = AppState.Downloading) :
    (stepSys s (.frame (some u) false none)).state = AppState.Initial
      ∧ (stepSys s (.frame (some u) false none)).url = u
      ∧ (stepSys s (.frame (some u) false none)).attempts = s.attempts
      ∧ (stepSys s (.frame (some u) false none)).dialogCount = s.dialogCount := by
  refine ⟨?_, ?_, ?_, ?_⟩ <;> show _ = _ <;> unfold stepSys updateFrame <;>
    dsimp only <;> split_ifs <;> first | rfl | simp_all

/-- Witness for C8: editing the url from a `Done` state (a completed
attempt) resets to `Initial` and does not touch the completed attempt's
tasks. -/
theorem C8_edit_resets_to_initial_witness :
    ¬(runSys "" DownloadType.AudioOnly
        [.frame none true (some "p.mp3"), .fetchDone 0]).state
          = AppState.Downloading
      ∧ (stepSys (runSys "" DownloadType.AudioOnly
            [.frame none true (some "p.mp3"), .fetchDone 0])
            (.frame (some "new url") false none)).state = AppState.Initial :=
  ⟨by decide,
    (C8_edit_resets_to_initial
        (runSys "" DownloadType.AudioOnly
          [.frame none true (some "p.mp3"), .fetchDone 0])
        "new url" (by decide)).1⟩

/-! ## Persistence (app.rs lines 31-43, 45-54, 56-67, 96-98)

`App` derives Serialize/Deserialize with `#[serde(default)]` on the
container: a field missing from the stored blob takes its value from
`App::default()`.  The fields `state` and `value` are `#[serde(skip)]`:
never serialized, and on deserialization they take their field defaults
(`AppState::Initial`, `0.0`).  The eframe storage collaborator is a
key-value blob store; we model the blob under `APP_KEY` as an
association list of typed values.  A field present with the wrong type
makes the whole deserialization fail. -/

/-- A value in the persisted key-value blob. -/
inductive PValue
  | str (s : String)
  | dt (d : DownloadType)
deriving DecidableEq, Repr

/-- The blob stored under `eframe::APP_KEY`. -/
abbrev Blob := List (String × PValue)

/-- First value stored under a key. -/
def lookupField : Blob → String → Option PValue
  | [], _ => none
  | (k, v) :: rest, key => if k = key then some v else lookupField rest key

/-- The persisted shape of `struct App` (app.rs lines 32-43): `url` and
`download_type` are serialized; `state` and `value` carry the shared
cells and are `#[serde(skip)]`. -/
structure AppData where
  url : String
  download_type : DownloadType
  state : AppState
  value : ℚ
deriving DecidableEq, Repr

/-- Embedding of `impl Default for App` (app.rs lines 45-54). -/
def defaultApp : AppData :=
  { url := ""
    download_type := DownloadType.AudioOnly
    state := AppState.Initial
    value := 0 }

/-- Embedding of `App::save` via `eframe::set_value` (app.rs lines 96-98): serializes
the two persisted fields and skips the rest. -/
def serializeApp (a : AppData) : Blob :=
  [("url", .str a.url), ("download_type", .dt a.download_type)]

/-- Decoding of the `url` field: missing means the container-level
`serde(default)` supplies `App::default().url`; a wrong type fails. -/
def decodeUrl : Option PValue → Option String
  | none => some defaultApp.url
  | some (.str s) => some s
  | some (.dt _) => none

/-- Decoding of the `download_type` field: missing means the
container-level `serde(default)` supplies
`App::default().download_type`; a wrong type fails. -/
def decodeDownloadType : Option PValue → Option DownloadType
  | none => some defaultApp.download_type
  | some (.dt d) => some d
  | some (.str _) => none

/-- Deserialization of the blob into `App`: both persisted fields must
decode (missing fields defaulting per `serde(default)`); the skipped
fields take their `Default` values (`Initial`, `0.0`). -/
def deserializeApp (blob : Blob) : Option AppData :=
  match decodeUrl (lookupField blob "url"),
      decodeDownloadType (lookupField blob "download_type") with
  | some u, some d =>
      some { url := u, download_type := d
             state := AppState.Initial, value := 0 }
  | _, _ => none

/-- Embedding of `App::new` (app.rs lines 56-67): with a storage collaborator
present, `eframe::get_value(storage, APP_KEY).unwrap_or_default()`;
without one, `Default::default()`. -/
def appNew (storage : Option Blob) : AppData :=
  match storage with
  | some blob => (deserializeApp blob).getD defaultApp
  | none => defaultApp

/-! ## Claim C9: preferences round-trip and field defaulting -/

/-- C9: serializing the preferences url = "x", download_type =
`VideoAudio` and deserializing yields the identical persisted value
(the skipped cells at their defaults), and any blob from which the
`download_type` field is missing deserializes, if it deserializes at
all, to download_type = `AudioOnly`, the declared default. -/
theorem C9_roundtrip_and_default (blob : Blob) (a : AppData)
    (hmiss : lookupField blob "download_type" = none)
    (hdes : deserializeApp blob = some a) :
    deserializeApp (serializeApp
        { url := "x", download_type := DownloadType.VideoAudio
          state := AppState.Initial, value := 0 })
      = some { url := "x", download_type := DownloadType.VideoAudio
               state := AppState.Initial, value := 0 }
      ∧ a.download_type = DownloadType.AudioOnly := by
  constructor
  · rfl
  · unfold deserializeApp at hdes
    rw [hmiss] at hdes
    cases hu : decodeUrl (lookupField blob "url") with
    | none => rw [hu] at hdes; cases hdes
    | some u =>
      rw [hu] at hdes
      dsimp only [decodeDownloadType] at hdes
      cases hdes
      rfl

/-- Witness for C9: the blob `[("url", "y")]` misses `download_type`
and deserializes with the declared default `AudioOnly`. -/
theorem C9_roundtrip_and_default_witness :
    lookupField [("url", PValue.str "y")] "download_type" = none
      ∧ deserializeApp [("url", PValue.str "y")]
          = some { url := "y", download_type := DownloadType.AudioOnly
                   state := AppState.Initial, value := 0 }
      ∧ (deserializeApp (serializeApp
            { url := "x", download_type := DownloadType.VideoAudio
              state := AppState.Initial, value := 0 })
          = some { url := "x", download_type := DownloadType.VideoAudio
                   state := AppState.Initial, value := 0 }
        ∧ ({ url := "y", download_type := DownloadType.AudioOnly
             state := AppState.Initial, value := 0 } : AppData).download_type
            = DownloadType.AudioOnly) :=
  ⟨by decide, by decide,
    C9_roundtrip_and_default [("url", PValue.str "y")]
      { url := "y", download_type := DownloadType.AudioOnly
        state := AppState.Initial, value := 0 }
      (by decide) (by decide)⟩

/-! ## Claim C10: startup with an undeserializable blob -/

/-- C10: when the storage blob exists but fails to deserialize as a
whole, startup returns the full default state: empty url, `AudioOnly`,
state `Initial`, fraction 0. -/
theorem C10_bad_blob_full_default (blob : Blob)
    (h : deserializeApp blob = none) :
    appNew (some blob) = defaultApp
      ∧ defaultApp.url = ""
      ∧ defaultApp.download_type = DownloadType.AudioOnly
      ∧ defaultApp.state = AppState.Initial
      ∧ defaultApp.value = 0 := by
  refine ⟨?_, rfl, rfl, rfl, rfl⟩
  unfold appNew
  dsimp only
  rw [h]
  rfl

/-- Witness for C10: a blob with a wrongly-typed `url` field fails to
deserialize as a whole and startup falls back to the full default. -/
theorem C10_bad_blob_full_default_witness :
    deserializeApp [("url", PValue.dt DownloadType.VideoAudio)] = none
      ∧ appNew (some [("url", PValue.dt DownloadType.VideoAudio)]) = defaultApp :=
  ⟨by decide,
    (C10_bad_blob_full_default [("url", PValue.dt DownloadType.VideoAudio)]
      (by decide)).1⟩
